import Mathlib

/-!
Verification of the RAG benchmarking script `internal_llm.py`.

The file shallowly embeds the script's pure logic: question-file loading
(`carregar_perguntas`), the RAG and control responders (`generate_response`,
`generate_raw_response`), FAISS index setup (`setup_rag_system`), the comparative
benchmark (`benchmark_interativo`) and the automated battery
(`executar_bateria_testes`), together with the chunking performed by the langchain
`CharacterTextSplitter` the script configures.  External collaborators (the Ollama
backend, the FAISS similarity ranking, the embedding computation, wall-clock time)
are modelled as explicit oracles passed in as parameters; console output that the
script's control flow depends on is modelled as a list of messages.  Python `str`
values are modelled as Lean `String`s (or `List Char` where character arithmetic
matters); Python wall-clock seconds are modelled as rationals.
-/

set_option maxRecDepth 100000

namespace InternalLLM

/-- Python `s[:n]` on a string: the first `n` characters. -/
def pyTake (n : Nat) (s : String) : String := String.mk (s.data.take n)

/-- The characters Python `str.strip()` removes. -/
def isPyWS (c : Char) : Bool :=
  c = ' ' || c = '\t' || c = '\n' || c = '\r' || c = '\x0b' || c = '\x0c'

/-- Python `str.strip()` on a character list: drop whitespace at both ends. -/
def pyStripL (l : List Char) : List Char :=
  ((l.dropWhile isPyWS).reverse.dropWhile isPyWS).reverse

/-- Python `str.strip()`. -/
def pyStrip (s : String) : String := String.mk (pyStripL s.data)

/-- Python `s.startswith(pre)`. -/
def pyStartsWith (pre s : String) : Bool := s.data.take pre.data.length == pre.data

/-- Python `os.path.basename`: the part of the path after the last `/`. -/
def pyBasename (s : String) : String :=
  String.mk (s.data.reverse.takeWhile (fun c => c != '/')).reverse

/-- How the script renders `doc.metadata.get("page", "N/A")`. -/
def pageStr : Option Nat → String
  | some n => toString n
  | none => "N/A"

/-- Configured chunk size in characters (line 48). -/
def CHUNK_SIZE : Nat := 500

/-- Configured chunk overlap in characters (line 49). -/
def CHUNK_OVERLAP : Nat := 100

/-- Name of the persisted FAISS index (line 36). -/
def FAISS_INDEX : String := "faiss_index"

/-- Python `round(x, 2)`, as applied to elapsed wall-clock seconds. -/
def round2 (x : ℚ) : ℚ := (round (x * 100) : ℤ) / 100

/-- The console messages of `carregar_perguntas` that the spec's claims are about:
its two errors, its two warnings and its success report. -/
inductive Msg where
  | erroCabecalho (encontrado : String)
  | erroNenhuma
  | avisoEsperadas (n : Nat)
  | avisoEnd
  | sucesso (n : Nat)
  | erroArquivo
deriving DecidableEq, Repr

/-- Whether a message is one of the `❌ Erro` messages (as opposed to a
`⚠️ Aviso` warning or the success report). -/
def Msg.isErro : Msg → Bool
  | .erroCabecalho _ => true
  | .erroNenhuma => true
  | .erroArquivo => true
  | _ => false

/-- The `for linha in file` loop of `carregar_perguntas` (lines 415-421): strip each
line, stop at `/end`, collect the non-blank stripped lines.  Also returns the final
value of the loop variable `linha` (read afterwards at line 430); the second
argument is its value before the loop. -/
def loopPerguntas : List String → String → List String × String
  | [], linha => ([], linha)
  | l :: ls, _ =>
    if pyStrip l = "/end" then ([], pyStrip l)
    else
      let r := loopPerguntas ls (pyStrip l)
      (if pyStrip l = "" then r.1 else pyStrip l :: r.1, r.2)

/-- `carregar_perguntas` (lines 395-442).  The input is `none` when
`perguntas.csv` is missing (`FileNotFoundError`) and otherwise the list of the
file's lines; `readline()` on an empty file yields `""`.  Returns the loaded
questions together with the console messages emitted. -/
def carregar_perguntas : Option (List String) → List String × List Msg
  | none => ([], [Msg.erroArquivo])
  | some lines =>
    let cabecalho := pyStrip (lines.head?.getD "")
    if cabecalho ≠ "Perguntas" then ([], [Msg.erroCabecalho cabecalho])
    else
      let r := loopPerguntas lines.tail ""
      if r.1 = [] then ([], [Msg.erroNenhuma])
      else
        (r.1,
          (if r.1.length ≠ 100 then [Msg.avisoEsperadas r.1.length] else []) ++
          (if r.2 ≠ "/end" then [Msg.avisoEnd] else []) ++
          [Msg.sucesso r.1.length])

/-- A langchain `Document` as the script uses it: the `source` path and optional
`page` number metadata, and the page/chunk text. -/
structure Doc where
  source : String
  page : Option Nat
  content : String
deriving DecidableEq, Repr

/-- Modelled from the spec: the FAISS vector store is an external library
component; `rank q` is its full similarity ranking of the indexed chunks for
query `q`, ordered from most to least similar (spec §4.3: `search` returns the
`k` nearest chunks by vector similarity, ordered from most to least similar). -/
structure VectorStore where
  rank : String → List Doc

/-- Modelled from the spec: the Ollama backend is an external inference service.
An oracle maps (model name, prompt text) either to a failure message
(`BackendUnavailable`: backend unreachable or model not provisioned) or to the
response text together with the raw elapsed wall-clock seconds of the timed
call. -/
abbrev Backend := String → String → Except String (String × ℚ)

/-- The configuration data of an `Ollama(...)` client object. -/
structure OllamaCfg where
  model : String
  temperature : ℚ
  system : String
  num_thread : Nat

/-- One call issued to the Ollama backend: which model was addressed and with
which prompt. -/
structure Invocation where
  model : String
  prompt : String
deriving DecidableEq, Repr

/-- One Query Result row of the exported table: columns `Modelo`, `Pergunta`,
`Tempo(s)`, `Resposta`, `Fontes`. -/
structure Row where
  modelo : String
  pergunta : String
  tempo : ℚ
  resposta : String
  fontes : String
deriving DecidableEq, Repr

/-- The grounded/RAG system persona (lines 168-175, repeated at lines 347-354). -/
def ragSystemPersona : String :=
  "\n        Você é um assistente acadêmico especializado em redes sem fio. Suas respostas devem ser em português do Brasil e baseadas \n        estritamente nos documentos fornecidos, com análise crítica e redação original. Responda com foco \n        em Wi-Fi 7 (IEEE 802.11be), explicando os conceitos de maneira clara, objetiva e tecnicamente \n        precisa, sem recorrer a conhecimento externo. Utilize apenas as informações presentes nos documentos, \n        mantendo o rigor técnico, evitando jargões excessivos e garantindo que a resposta seja interpretável \n        por profissionais da área técnica ou estudantes avançados.\n        "

/-- The general-knowledge/control persona of `generate_raw_response` (lines 244-251). -/
def rawSystemPersona : String :=
  "\n        Você é um assistente técnico especializado em redes sem fio, com foco em Wi-Fi 7 (IEEE 802.11be). \n        Responda sempre em português do Brasil de forma clara, objetiva e acessível, utilizando termos corretos, mas explicando conceitos \n        de maneira simples. Evite jargões excessivos. Seja direto, didático e preciso, como se estivesse \n        explicando para um profissional da área técnica que deseja respostas rápidas, porém compreensíveis \n        por qualquer pessoa com conhecimento básico em tecnologia. Responda com conhecimento geral \n        (não use documentos específicos).\n        "

/-- The `Ollama(...)` configuration built for a RAG model both by
`setup_rag_system` (lines 165-177) and inline by `benchmark_interativo`
(lines 344-356): temperature `0.3`, the RAG persona, and 4 threads except for
`tinyllama` which gets 2. -/
def ollamaRagCfg (model_name : String) : OllamaCfg :=
  ⟨model_name, 3 / 10, ragSystemPersona, if model_name ≠ "tinyllama" then 4 else 2⟩

/-- `vectorstore.similarity_search(question, k)` (line 202): the `k` nearest
chunks in most-to-least-similar order, i.e. the first `k` entries of the
ranking. -/
def similarity_search (vs : VectorStore) (question : String) (k : Nat) : List Doc :=
  (vs.rank question).take k

/-- The context block `generate_response` builds from the retrieved chunks
(lines 205-209). -/
def contextStr (docs : List Doc) : String :=
  String.intercalate "\n\n" (docs.map fun d =>
    "Fonte: " ++ pyBasename d.source ++ " (Página " ++ pageStr d.page ++ ")\n" ++
    "Conteúdo: " ++ d.content ++ "\n------")

/-- The final prompt of `generate_response` (lines 212-215). -/
def promptStr (question : String) (docs : List Doc) : String :=
  "Com base nestes trechos:\n    " ++ contextStr docs ++
  "\n    Responda à pergunta abaixo com suas próprias palavras.\n    Pergunta: " ++ question

/-- `generate_response` (lines 181-221): retrieve the top 5 chunks, build the
prompt, invoke the model, and round the elapsed time to two decimal places.
A backend failure propagates (the `Except`).  The second component records the
backend invocation that was issued. -/
def generate_response (question : String) (vs : VectorStore) (backend : Backend)
    (llm : OllamaCfg) : Except String (String × List Doc × ℚ) × Invocation :=
  let docs := similarity_search vs question 5
  let prompt := promptStr question docs
  (Except.map (fun rt => (rt.1, docs, round2 rt.2)) (backend llm.model prompt),
   ⟨llm.model, prompt⟩)

/-- `generate_raw_response` (lines 223-257): invoke the model directly on the
unmodified question.  Its `model_name` parameter defaults to `"llama2"` and no
call site (lines 320, 473, 585) ever passes it, so the model is fixed here. -/
def generate_raw_response (backend : Backend) (question : String) :
    Except String (String × ℚ) × Invocation :=
  (Except.map (fun rt => (rt.1, round2 rt.2)) (backend "llama2" question),
   ⟨"llama2", question⟩)

/-- The on-disk state `setup_rag_system` consults: whether a snapshot named
`FAISS_INDEX` exists, and the index it holds if so. -/
structure FileSystem where
  indexExists : Bool
  savedIndex : VectorStore

/-- The index load-or-build logic (lines 155-161, duplicated at lines 294-298):
if the snapshot exists, load it as-is; otherwise build a fresh index from the
chunks (`build` models `FAISS.from_documents` with the embeddings, an external
computation) and save it.  Returns the vector store and the file system state
afterwards. -/
def setup_vectorstore (fs : FileSystem) (build : List Doc → VectorStore)
    (chunks : List Doc) : VectorStore × FileSystem :=
  if fs.indexExists then (fs.savedIndex, fs)
  else (build chunks, ⟨true, build chunks⟩)

/-- `setup_rag_system` (lines 122-179): `"llama2_raw"` gets no RAG components;
any other model gets the loaded-or-built vector store and its `Ollama`
configuration.  `chunks` is the output of the text splitter on the loaded
documents (chunking happens before the load-or-build decision and does not
influence it when a snapshot exists). -/
def setup_rag_system (model_name : String) (fs : FileSystem)
    (build : List Doc → VectorStore) (chunks : List Doc) :
    Option (VectorStore × OllamaCfg) × FileSystem :=
  if model_name = "llama2_raw" then (none, fs)
  else
    let r := setup_vectorstore fs build chunks
    (some (r.1, ollamaRagCfg model_name), r.2)

/-- The question truncation applied by `benchmark_interativo` when storing a row
(lines 323, 368): first 80 characters plus an ellipsis for longer questions. -/
def truncQ (q : String) : String := pyTake 80 q ++ (if q.length > 80 then "..." else "")

/-- The response truncation applied by `benchmark_interativo` (lines 325, 370):
strip, first 500 characters, plus an ellipsis when the unstripped response was
longer than 500. -/
def truncR (r : String) : String :=
  pyTake 500 (pyStrip r) ++ (if r.length > 500 then "..." else "")

/-- The RAG configurations `benchmark_interativo` iterates (lines 333-337). -/
def modelos_rag : List (String × String) :=
  [("mistral", "Mistral (RAG)"), ("llama2", "Llama2 (RAG)"), ("tinyllama", "TinyLlama (RAG)")]

/-- One cited source as formatted for the `Fontes` column (lines 360-363,
510-513): `basename (p.page)`. -/
def fonteDe (d : Doc) : String := pyBasename d.source ++ " (p." ++ pageStr d.page ++ ")"

/-- The `Fontes` column: the cited chunks joined with `"; "` in retrieval
order. -/
def fontesStr (docs : List Doc) : String := String.intercalate "; " (docs.map fonteDe)

/-- One iteration of the question loop of `benchmark_interativo` (lines 315-378):
first the control model, then each RAG configuration in order.  A failed call is
caught, a failure message is printed, and the loop continues with the next
configuration; only successful calls append a row. -/
def benchmark_question (backend : Backend) (vs : VectorStore) (question : String) :
    List Row :=
  (match (generate_raw_response backend question).1 with
   | Except.ok rt =>
     [⟨"llama2 (CONTROLE)", truncQ question, rt.2, truncR rt.1, "N/A (resposta controle)"⟩]
   | Except.error _ => []) ++
  modelos_rag.filterMap fun m =>
    match (generate_response question vs backend (ollamaRagCfg m.1)).1 with
    | Except.ok rdt => some ⟨m.2, truncQ question, rdt.2.2, truncR rdt.1, fontesStr rdt.2.1⟩
    | Except.error _ => none

/-- The whole interactive benchmark loop over an externally supplied question
sequence, plus the final export (lines 310-393): rows accumulate across
questions and the CSV is written only when at least one row was collected. -/
def benchmark_run (backend : Backend) (vs : VectorStore) (questions : List String) :
    List Row × Option (List Row) :=
  let rows := (questions.map (benchmark_question backend vs)).flatten
  (rows, if rows = [] then none else some rows)

/-- The loop body of the `"llama2_raw"` branch of `executar_bateria_testes`
(lines 468-493): a success stores the rounded time and the response truncated to
2000 characters; a caught failure stores time 0 and `ERRO: ` plus the message.
The question is stored as-is.  The second component is the backend call made. -/
def stepRaw (backend : Backend) (p : String) : Row × Invocation :=
  let ri := generate_raw_response backend p
  (match ri.1 with
   | Except.ok rt => ⟨"llama2_raw", p, rt.2, pyTake 2000 rt.1, "N/A (resposta controle)"⟩
   | Except.error e => ⟨"llama2_raw", p, 0, "ERRO: " ++ e, "N/A"⟩,
   ri.2)

/-- The loop body of the RAG branch of `executar_bateria_testes` (lines 502-533);
`outerT p` is the raw wall-clock time this branch itself measures around
`generate_response` (lines 507, 518), rounded on storage. -/
def stepRag (model_name : String) (backend : Backend) (vs : VectorStore)
    (llm : OllamaCfg) (outerT : String → ℚ) (p : String) : Row × Invocation :=
  let ri := generate_response p vs backend llm
  (match ri.1 with
   | Except.ok rdt => ⟨model_name, p, round2 (outerT p), pyTake 2000 rdt.1, fontesStr rdt.2.1⟩
   | Except.error e => ⟨model_name, p, 0, "ERRO: " ++ e, "N/A"⟩,
   ri.2)

/-- Whether the final report counts a stored row as answered (line 541:
`not r['Resposta'].startswith('ERRO')`). -/
def respOk (r : Row) : Bool := !(pyStartsWith "ERRO" r.resposta)

/-- What a run of `executar_bateria_testes` produces: the collected rows, the
backend invocations made, the exported CSV (if any), the console messages of
question loading, and the final `answered/total` report (if reached). -/
structure BatchResult where
  rows : List Row
  invocations : List Invocation
  exportCsv : Option (List Row)
  msgs : List Msg
  reported : Option (Nat × Nat)

/-- `executar_bateria_testes` (lines 444-541): load the questions (aborting with
no export when none load), run every question through the selected model
(control branch or RAG branch), then export all rows and report how many stored
responses do not start with `ERRO`, out of the total. -/
def executar_bateria_testes (model_name : String) (file : Option (List String))
    (backend : Backend) (fs : FileSystem) (build : List Doc → VectorStore)
    (chunks : List Doc) (outerT : String → ℚ) : BatchResult :=
  let pm := carregar_perguntas file
  let perguntas := pm.1
  if perguntas = [] then ⟨[], [], none, pm.2, none⟩
  else if model_name = "llama2_raw" then
    let pares := perguntas.map (stepRaw backend)
    let resultados := pares.map (fun x => x.1)
    ⟨resultados, pares.map (fun x => x.2), some resultados, pm.2,
      some ((resultados.filter respOk).length, perguntas.length)⟩
  else
    match (setup_rag_system model_name fs build chunks).1 with
    | some vl =>
      let pares := perguntas.map (stepRag model_name backend vl.1 vl.2 outerT)
      let resultados := pares.map (fun x => x.1)
      ⟨resultados, pares.map (fun x => x.2), some resultados, pm.2,
        some ((resultados.filter respOk).length, perguntas.length)⟩
    | none => ⟨[], [], none, pm.2, none⟩

/-- Python `str` as a character list, for the character-level chunking
arithmetic of the text splitter. -/
abbrev PyStr := List Char

/-- How langchain `CharacterTextSplitter(separator="\n")` splits the text before
merging (`_split_text_with_regex` with `keep_separator=False`):
`re.split("\n", text)` with the empty pieces dropped. -/
def splitLines (text : PyStr) : List PyStr :=
  (text.splitOn '\n').filter (fun l => !l.isEmpty)

/-- `"\n".join(parts)`. -/
def joinNL : List PyStr → PyStr
  | [] => []
  | [c] => c
  | c :: rest => c ++ '\n' :: joinNL rest

/-- The running `total` bookkeeping of langchain `TextSplitter._merge_splits`:
the joined length of the pending pieces (their lengths plus one separator
character between neighbours). -/
def weight : List PyStr → Nat
  | [] => 0
  | c :: rest => c.length + (if rest = [] then 0 else 1) + weight rest

/-- langchain `TextSplitter._join_docs`: join with the separator, strip, and
drop an empty result. -/
def joinDocs (current : List PyStr) : Option PyStr :=
  let text := pyStripL (joinNL current)
  if text = [] then none else some text

/-- The pop-from-the-front `while` loop of langchain `TextSplitter._merge_splits`
with the script's parameters (`chunk_size=CHUNK_SIZE`,
`chunk_overlap=CHUNK_OVERLAP`, one-character separator): entered with the
pending pieces and their running `total` when the next piece (of length `dLen`)
would overflow the chunk size; keeps popping while the pending length exceeds
the overlap, or while it is positive and would still overflow together with the
next piece. -/
def popLoop (dLen : Nat) : List PyStr → Nat → List PyStr × Nat
  | [], total => ([], total)
  | c :: rest, total =>
    if total > CHUNK_OVERLAP ∨ (total + dLen + 1 > CHUNK_SIZE ∧ total > 0) then
      popLoop dLen rest (total - (c.length + if rest = [] then 0 else 1))
    else (c :: rest, total)

/-- The main `for` loop of langchain `TextSplitter._merge_splits` over the split
pieces, with accumulator `docs`, pending pieces `current` and their running
joined length `total`: when the next piece would overflow the chunk size, the
pending pieces are flushed as a chunk and the overlap-sized tail of them is kept;
then (in every case) the piece is appended to the pending list.  The pending
pieces left at the end form the final chunk. -/
def mergeLoop (docs current : List PyStr) (total : Nat) : List PyStr → List PyStr
  | [] => docs ++ (joinDocs current).toList
  | d :: ds =>
    if total + d.length + (if current = [] then 0 else 1) > CHUNK_SIZE then
      if current ≠ [] then
        let docs2 := docs ++ (joinDocs current).toList
        let pr := popLoop d.length current total
        mergeLoop docs2 (pr.1 ++ [d]) (pr.2 + d.length + (if pr.1 = [] then 0 else 1)) ds
      else
        mergeLoop docs (current ++ [d]) (total + d.length + (if current = [] then 0 else 1)) ds
    else
      mergeLoop docs (current ++ [d]) (total + d.length + (if current = [] then 0 else 1)) ds

/-- langchain `CharacterTextSplitter.split_text` as configured by the script
(lines 144-148 and 285-289): separator `"\n"`, `chunk_size=CHUNK_SIZE`,
`chunk_overlap=CHUNK_OVERLAP`.  Split on newlines, then merge. -/
def split_text (text : PyStr) : List PyStr := mergeLoop [] [] 0 (splitLines text)

/-- `c1` and `c2` share `k` characters of content at their boundary: the last
`k` characters of `c1` are the first `k` characters of `c2`. -/
def sharesK (c1 c2 : PyStr) (k : Nat) : Prop :=
  k ≤ c1.length ∧ k ≤ c2.length ∧ c1.drop (c1.length - k) = c2.take k

/-- Consecutive chunks share at least `n` characters of content at the
boundary. -/
def sharesAtLeast (c1 c2 : PyStr) (n : Nat) : Prop :=
  ∃ k, n ≤ k ∧ sharesK c1 c2 k

/-! Concrete fixtures used to instantiate the theorems below. -/

/-- A vector store whose ranking is empty for every query. -/
def vsEmpty : VectorStore := ⟨fun _ => []⟩

/-- On-disk state with no persisted FAISS snapshot. -/
def fsEmpty : FileSystem := ⟨false, vsEmpty⟩

/-- A trivial index builder. -/
def buildEmpty : List Doc → VectorStore := fun _ => vsEmpty

/-- A backend on which every call fails (Ollama unreachable). -/
def bkDown : Backend := fun _ _ => Except.error "Connection refused"

/-- A backend on which every call succeeds in one second. -/
def bkOk : Backend := fun _ _ => Except.ok ("Resposta gerada.", 1)

/-- A trivial outer wall-clock oracle. -/
def zeroT : String → ℚ := fun _ => 0

/-- A backend on which exactly the `mistral` model fails. -/
def bkC1 : Backend := fun model _ =>
  if model = "mistral" then Except.error "Falha na chamada" else Except.ok ("Resposta gerada.", 1)

/-- A 2500-character question (longer than every truncation bound of the
script: 80, 500 and 2000). -/
def q2500 : String := String.mk (List.replicate 2500 'q')

/-- The higher-scoring chunk of the spec's retrieval scenario. -/
def docA : Doc := ⟨"doc1.pdf", some 1, "Conteúdo A"⟩

/-- The lower-scoring chunk of the spec's retrieval scenario. -/
def docB : Doc := ⟨"doc2.pdf", some 2, "Conteúdo B"⟩

/-- The 2-chunk index of the spec's retrieval scenario: `docA` ranks above
`docB` for every query. -/
def vsAB : VectorStore := ⟨fun _ => [docA, docB]⟩

/-- An index holding six chunks, for instantiating top-5 retrieval. -/
def vs6 : VectorStore := ⟨fun _ => [docA, docB, docA, docB, docA, docB]⟩

/-- Every question collected by the loading loop is a stripped, non-blank line
taken from before the first line that strips to `/end`. -/
theorem loopPerguntas_sound :
    ∀ (ls : List String) (init p : String), p ∈ (loopPerguntas ls init).1 →
      p ≠ "" ∧ p ∈ (ls.takeWhile fun l => pyStrip l != "/end").map pyStrip
  | [], _, p => by simp [loopPerguntas]
  | l :: ls, init, p => by
    intro hp
    by_cases hend : pyStrip l = "/end"
    · simp [loopPerguntas, hend] at hp
    · have ih := loopPerguntas_sound ls (pyStrip l) p
      simp only [loopPerguntas, if_neg hend] at hp
      have htw : (l :: ls).takeWhile (fun l => pyStrip l != "/end") =
          l :: ls.takeWhile (fun l => pyStrip l != "/end") := by
        simp [List.takeWhile_cons, hend]
      rw [htw]
      by_cases hblank : pyStrip l = ""
      · rw [if_pos hblank] at hp
        rcases ih hp with ⟨h1, h2⟩
        exact ⟨h1, by simp only [List.map_cons, List.mem_cons]; exact Or.inr h2⟩
      · rw [if_neg hblank] at hp
        rcases List.mem_cons.mp hp with rfl | hp2
        · exact ⟨hblank, by simp⟩
        · rcases ih hp2 with ⟨h1, h2⟩
          exact ⟨h1, by simp only [List.map_cons, List.mem_cons]; exact Or.inr h2⟩

/-- With a valid header, every question `carregar_perguntas` returns comes from
the loading loop. -/
theorem carregar_mem_loop (rest : List String) (p : String)
    (hp : p ∈ (carregar_perguntas (some ("Perguntas" :: rest))).1) :
    p ∈ (loopPerguntas rest "").1 := by
  have hhd : pyStrip "Perguntas" = "Perguntas" := by decide
  simp only [carregar_perguntas, List.head?_cons, Option.getD_some, List.tail_cons, hhd,
    ne_eq, not_true_eq_false, if_false] at hp
  by_cases hr : (loopPerguntas rest "").1 = []
  · rw [if_pos hr] at hp
    simp at hp
  · rwa [if_neg hr] at hp

/-- C9: `carregar_perguntas` skips blank lines (a line that strips to the empty
string is never returned as a question) and never returns any line appearing
after the first `/end` marker line, for every input file whose header line is
`Perguntas`: every returned question is the stripped form of a non-blank line
taken from before the first line stripping to `/end`. -/
theorem C9_no_blank_no_after_end (rest : List String) (p : String)
    (hp : p ∈ (carregar_perguntas (some ("Perguntas" :: rest))).1) :
    p ≠ "" ∧ p ∈ (rest.takeWhile fun l => pyStrip l != "/end").map pyStrip :=
  loopPerguntas_sound rest "" p (carregar_mem_loop rest p hp)

/-- Witness for C9 at a concrete file: the question `P1?` is returned and indeed
stems from before the `/end` marker. -/
theorem C9_witness :
    "P1?" ≠ "" ∧
      "P1?" ∈ ((["P1?", "/end", "depois"].takeWhile fun l => pyStrip l != "/end").map pyStrip) :=
  C9_no_blank_no_after_end ["P1?", "/end", "depois"] "P1?" (by decide)

/-- C3 (amended): on the concrete file with header `Perguntas`, 3 questions and
`/end`, exactly those 3 questions are returned in file order with a warning that
100 were expected; and in general a NONZERO question count other than 100 only
produces the warning, never one of the error messages.  (The original claim's
"a question count other than 100 is never a rejection" fails for the count 0,
see the counterexample.) -/
theorem C3_count_warning (rest : List String) (ps : List String) (msgs : List Msg)
    (h : carregar_perguntas (some ("Perguntas" :: rest)) = (ps, msgs))
    (hne : ps ≠ []) (h100 : ps.length ≠ 100) :
    (Msg.avisoEsperadas ps.length ∈ msgs ∧ ∀ m ∈ msgs, Msg.isErro m = false) ∧
      carregar_perguntas (some ["Perguntas", "P1?", "P2?", "P3?", "/end"]) =
        (["P1?", "P2?", "P3?"], [Msg.avisoEsperadas 3, Msg.sucesso 3]) := by
  refine ⟨?_, by decide⟩
  have hhd : pyStrip "Perguntas" = "Perguntas" := by decide
  simp only [carregar_perguntas, List.head?_cons, Option.getD_some, List.tail_cons, hhd,
    ne_eq, not_true_eq_false, if_false] at h
  by_cases hr : (loopPerguntas rest "").1 = []
  · rw [if_pos hr] at h
    obtain ⟨h1, h2⟩ := Prod.mk.inj h
    exact absurd h1.symm hne
  · rw [if_neg hr] at h
    obtain ⟨h1, h2⟩ := Prod.mk.inj h
    subst h1
    subst h2
    constructor
    · rw [if_pos h100]
      simp
    · intro m hm
      revert hm
      split_ifs <;> simp only [List.mem_append, List.mem_singleton, List.append_nil,
        List.nil_append, List.mem_cons, List.not_mem_nil, or_false, false_or] <;>
        rintro ((rfl | rfl) | rfl) <;> rfl

/-- Counterexample to C3 as stated: a file with 0 questions — a count other than
100 — is rejected with the error `Nenhuma pergunta encontrada` (and no warning),
not accepted with a warning. -/
theorem C3_cex :
    carregar_perguntas (some ["Perguntas", "/end"]) = ([], [Msg.erroNenhuma]) := by decide

/-- Witness for C3 at the concrete 3-question file. -/
theorem C3_witness :
    Msg.avisoEsperadas 3 ∈ [Msg.avisoEsperadas 3, Msg.sucesso 3] :=
  ((C3_count_warning ["P1?", "P2?", "P3?", "/end"] ["P1?", "P2?", "P3?"]
      [Msg.avisoEsperadas 3, Msg.sucesso 3] (by decide) (by decide) (by decide)).1).1

/-- When `carregar_perguntas` yields no questions, one of its error messages was
emitted. -/
theorem carregar_empty_has_erro (file : Option (List String))
    (h0 : (carregar_perguntas file).1 = []) :
    ∃ m ∈ (carregar_perguntas file).2, Msg.isErro m = true := by
  cases file with
  | none => exact ⟨Msg.erroArquivo, by simp [carregar_perguntas], rfl⟩
  | some lines =>
    by_cases hc : pyStrip (lines.head?.getD "") = "Perguntas"
    · by_cases hr : (loopPerguntas lines.tail "").1 = []
      · exact ⟨Msg.erroNenhuma, by simp [carregar_perguntas, hc, hr], rfl⟩
      · have hfst : (carregar_perguntas (some lines)).1 = (loopPerguntas lines.tail "").1 := by
          simp [carregar_perguntas, hc, hr]
        rw [hfst] at h0
        exact absurd h0 hr
    · exact ⟨Msg.erroCabecalho (pyStrip (lines.head?.getD "")), by simp [carregar_perguntas, hc],
        rfl⟩

/-- C8: if the question file yields 0 questions (missing file, wrong header, or
no question lines), the batch run reports an error and terminates without
invoking any model and without producing an export file. -/
theorem C8_zero_questions_aborts (model_name : String) (file : Option (List String))
    (backend : Backend) (fs : FileSystem) (build : List Doc → VectorStore)
    (chunks : List Doc) (outerT : String → ℚ)
    (h0 : (carregar_perguntas file).1 = []) :
    (executar_bateria_testes model_name file backend fs build chunks outerT).invocations = [] ∧
    (executar_bateria_testes model_name file backend fs build chunks outerT).exportCsv = none ∧
    (executar_bateria_testes model_name file backend fs build chunks outerT).rows = [] ∧
    ∃ m ∈ (executar_bateria_testes model_name file backend fs build chunks outerT).msgs,
      Msg.isErro m = true := by
  have hmsgs :
      (executar_bateria_testes model_name file backend fs build chunks outerT) =
        ⟨[], [], none, (carregar_perguntas file).2, none⟩ := by
    simp [executar_bateria_testes, h0]
  rw [hmsgs]
  exact ⟨rfl, rfl, rfl, carregar_empty_has_erro file h0⟩

/-- Witness for C8 with a missing question file. -/
theorem C8_witness :
    (executar_bateria_testes "mistral" none bkDown fsEmpty buildEmpty [] zeroT).exportCsv
      = none :=
  (C8_zero_questions_aborts "mistral" none bkDown fsEmpty buildEmpty [] zeroT (by decide)).2.1

/-- Python slicing never yields more than `n` characters. -/
theorem pyTake_length_le (n : Nat) (s : String) : (pyTake n s).length ≤ n := by
  show (s.data.take n).length ≤ n
  simp [List.length_take]

/-- A stored error marker is detected by the final report's check. -/
theorem pyStartsWith_ERRO (e : String) : pyStartsWith "ERRO" ("ERRO: " ++ e) = true := by
  have hlit : "ERRO: ".data = ['E', 'R', 'R', 'O', ':', ' '] := by decide
  have hlit4 : "ERRO".data = ['E', 'R', 'R', 'O'] := by decide
  show (("ERRO: " ++ e).data.take "ERRO".data.length == "ERRO".data) = true
  rw [String.data_append, hlit, hlit4]
  simp

/-- The truncated question stored by the comparative benchmark has at most
80 + 3 characters. -/
theorem truncQ_length (q : String) : (truncQ q).length ≤ 83 := by
  unfold truncQ
  rw [String.length_append]
  have h1 := pyTake_length_le 80 q
  have h2 : (if q.length > 80 then "..." else "").length ≤ 3 := by
    split_ifs
    · decide
    · decide
  omega

/-- The truncated response stored by the comparative benchmark has at most
500 + 3 characters. -/
theorem truncR_length (r : String) : (truncR r).length ≤ 503 := by
  unfold truncR
  rw [String.length_append]
  have h1 := pyTake_length_le 500 (pyStrip r)
  have h2 : (if r.length > 500 then "..." else "").length ≤ 3 := by
    split_ifs
    · decide
    · decide
  omega

/-- The stored fields of a control-branch batch row: the question is stored
verbatim, and either the row is a truncated success or it is an `ERRO: ` row the
report will not count. -/
theorem stepRaw_fields (backend : Backend) (p : String) :
    ((stepRaw backend p).1).pergunta = p ∧
    ((stepRaw backend p).1).modelo = "llama2_raw" ∧
    (stepRaw backend p).2 = ⟨"llama2", p⟩ ∧
    (respOk (stepRaw backend p).1 = true → ((stepRaw backend p).1).resposta.length ≤ 2000) := by
  cases hb : backend "llama2" p with
  | ok rt =>
    refine ⟨?_, ?_, ?_, fun _ => ?_⟩ <;>
      simp [stepRaw, generate_raw_response, hb, Except.map, pyTake_length_le]
  | error e =>
    refine ⟨?_, ?_, ?_, fun hok => ?_⟩ <;>
      simp_all [stepRaw, generate_raw_response, Except.map, respOk, pyStartsWith_ERRO]

/-- The stored fields of a RAG-branch batch row: the question is stored
verbatim, and either the row is a truncated success or it is an `ERRO: ` row the
report will not count. -/
theorem stepRag_fields (model_name : String) (backend : Backend) (vs : VectorStore)
    (llm : OllamaCfg) (outerT : String → ℚ) (p : String) :
    ((stepRag model_name backend vs llm outerT p).1).pergunta = p ∧
    ((stepRag model_name backend vs llm outerT p).1).modelo = model_name ∧
    (respOk (stepRag model_name backend vs llm outerT p).1 = true →
      ((stepRag model_name backend vs llm outerT p).1).resposta.length ≤ 2000) := by
  cases hb : backend llm.model (promptStr p (similarity_search vs p 5)) with
  | ok rt =>
    refine ⟨?_, ?_, fun _ => ?_⟩ <;>
      simp [stepRag, generate_response, hb, Except.map, pyTake_length_le]
  | error e =>
    refine ⟨?_, ?_, fun hok => ?_⟩ <;>
      simp_all [stepRag, generate_response, Except.map, respOk, pyStartsWith_ERRO]

/-- The control branch of `executar_bateria_testes`, written out: one row and
one invocation per question, all rows exported, the report counting the rows
whose response does not start with `ERRO`. -/
theorem executar_raw_eq (file : Option (List String)) (backend : Backend) (fs : FileSystem)
    (build : List Doc → VectorStore) (chunks : List Doc) (outerT : String → ℚ)
    (hne : (carregar_perguntas file).1 ≠ []) :
    executar_bateria_testes "llama2_raw" file backend fs build chunks outerT =
      ⟨(carregar_perguntas file).1.map (fun p => (stepRaw backend p).1),
       (carregar_perguntas file).1.map (fun p => (stepRaw backend p).2),
       some ((carregar_perguntas file).1.map (fun p => (stepRaw backend p).1)),
       (carregar_perguntas file).2,
       some ((((carregar_perguntas file).1.map (fun p => (stepRaw backend p).1)).filter
          respOk).length,
        (carregar_perguntas file).1.length)⟩ := by
  simp [executar_bateria_testes, hne, List.map_map, Function.comp_def]

/-- The RAG branch of `executar_bateria_testes`, written out. -/
theorem executar_rag_eq (model_name : String) (file : Option (List String)) (backend : Backend)
    (fs : FileSystem) (build : List Doc → VectorStore) (chunks : List Doc)
    (outerT : String → ℚ) (hne : (carregar_perguntas file).1 ≠ [])
    (hm : model_name ≠ "llama2_raw") :
    executar_bateria_testes model_name file backend fs build chunks outerT =
      ⟨(carregar_perguntas file).1.map (fun p =>
          (stepRag model_name backend (setup_vectorstore fs build chunks).1
            (ollamaRagCfg model_name) outerT p).1),
       (carregar_perguntas file).1.map (fun p =>
          (stepRag model_name backend (setup_vectorstore fs build chunks).1
            (ollamaRagCfg model_name) outerT p).2),
       some ((carregar_perguntas file).1.map (fun p =>
          (stepRag model_name backend (setup_vectorstore fs build chunks).1
            (ollamaRagCfg model_name) outerT p).1)),
       (carregar_perguntas file).2,
       some ((((carregar_perguntas file).1.map (fun p =>
            (stepRag model_name backend (setup_vectorstore fs build chunks).1
              (ollamaRagCfg model_name) outerT p).1)).filter respOk).length,
        (carregar_perguntas file).1.length)⟩ := by
  simp [executar_bateria_testes, hne, hm, setup_rag_system, List.map_map, Function.comp_def]

/-- C1 (amended): in comparative mode a failed configuration is reported and
skipped — no Query Result row is recorded for it — and the run continues with
the remaining configurations: the recorded rows are exactly one per successful
configuration, in configuration order, whatever the other configurations did.
(The original claim's "records that failure as a Query Result row" fails, see
the counterexample.) -/
theorem C1_failures_skipped (backend : Backend) (vs : VectorStore) (question : String) :
    (benchmark_question backend vs question).map Row.modelo =
      (match (generate_raw_response backend question).1 with
        | Except.ok _ => ["llama2 (CONTROLE)"]
        | Except.error _ => []) ++
      ((modelos_rag.filter fun m =>
          match (generate_response question vs backend (ollamaRagCfg m.1)).1 with
          | Except.ok _ => true
          | Except.error _ => false).map Prod.snd) := by
  unfold benchmark_question modelos_rag
  rcases h0 : (generate_raw_response backend question).1 with e0 | r0 <;>
    rcases h1 : (generate_response question vs backend (ollamaRagCfg "mistral")).1 with e1 | r1 <;>
    rcases h2 : (generate_response question vs backend (ollamaRagCfg "llama2")).1 with e2 | r2 <;>
    rcases h3 : (generate_response question vs backend (ollamaRagCfg "tinyllama")).1 with e3 | r3 <;>
    simp [List.filterMap_cons, h0, h1, h2, h3]

/-- Counterexample to C1: with the `mistral` invocation failing and the others
succeeding, the question produces only 3 rows — one per successful
configuration — and no row at all (in particular no recorded-failure row) for
the failed `Mistral (RAG)` configuration; the claim requires 4 rows, one of
them recording the failure. -/
theorem C1_cex :
    (benchmark_question bkC1 vsEmpty "O que é Wi-Fi 7?").map Row.modelo =
      ["llama2 (CONTROLE)", "Llama2 (RAG)", "TinyLlama (RAG)"] := by decide

/-- C2 (amended): in comparative mode every stored row has its question
truncated (to 80 characters plus ellipsis) and its response truncated (to 500
characters plus ellipsis); in batch mode the response of a row the report counts
as answered is truncated to 2000 characters, but the question text is stored
untruncated, exactly as loaded.  (The original claim's "question text truncated
in both modes" fails in batch mode, see the counterexample.) -/
theorem C2_truncation (backend : Backend) (vs : VectorStore) (q : String)
    (model_name : String) (file : Option (List String)) (fs : FileSystem)
    (build : List Doc → VectorStore) (chunks : List Doc) (outerT : String → ℚ)
    (i : Nat) (p : String) (hp : ((carregar_perguntas file).1)[i]? = some p) :
    (∀ row ∈ benchmark_question backend vs q,
        row.pergunta.length ≤ 83 ∧ row.resposta.length ≤ 503) ∧
    ∃ row,
      (executar_bateria_testes model_name file backend fs build chunks outerT).rows[i]? =
        some row ∧
      row.pergunta = p ∧ (respOk row = true → row.resposta.length ≤ 2000) := by
  have hne : (carregar_perguntas file).1 ≠ [] := by
    intro h
    rw [h] at hp
    simp at hp
  constructor
  · intro row hrow
    rcases List.mem_append.mp hrow with hc | hrag
    · revert hc
      cases hgen : (generate_raw_response backend q).1 with
      | ok rt =>
        intro hc
        simp only [List.mem_singleton] at hc
        subst hc
        exact ⟨truncQ_length q, truncR_length rt.1⟩
      | error e =>
        intro hc
        simp at hc
    · rcases List.mem_filterMap.mp hrag with ⟨m, hm, hf⟩
      revert hf
      cases hgen : (generate_response q vs backend (ollamaRagCfg m.1)).1 with
      | ok rdt =>
        intro hf
        obtain rfl := Option.some.inj hf
        exact ⟨truncQ_length q, truncR_length rdt.1⟩
      | error e =>
        intro hf
        simp at hf
  · by_cases hmn : model_name = "llama2_raw"
    · subst hmn
      rw [executar_raw_eq file backend fs build chunks outerT hne]
      refine ⟨(stepRaw backend p).1, ?_, (stepRaw_fields backend p).1,
        (stepRaw_fields backend p).2.2.2⟩
      dsimp only
      rw [List.getElem?_map, hp]
      rfl
    · rw [executar_rag_eq model_name file backend fs build chunks outerT hne hmn]
      refine ⟨(stepRag model_name backend (setup_vectorstore fs build chunks).1
          (ollamaRagCfg model_name) outerT p).1, ?_,
        (stepRag_fields model_name backend (setup_vectorstore fs build chunks).1
          (ollamaRagCfg model_name) outerT p).1,
        (stepRag_fields model_name backend (setup_vectorstore fs build chunks).1
          (ollamaRagCfg model_name) outerT p).2.2⟩
      dsimp only
      rw [List.getElem?_map, hp]
      rfl

/-- Stripping a run of `q` characters changes nothing. -/
theorem pyStripL_replicate (n : Nat) :
    pyStripL (List.replicate n 'q') = List.replicate n 'q' := by
  have hq : isPyWS 'q' = false := by decide
  have hd : ∀ m, (List.replicate m 'q').dropWhile isPyWS = List.replicate m 'q' := by
    intro m
    cases m with
    | zero => rfl
    | succ k => simp [List.replicate_succ, List.dropWhile_cons, hq]
  unfold pyStripL
  rw [hd, List.reverse_replicate, hd, List.reverse_replicate]

/-- Counterexample to C2: in batch mode a 2500-character question is stored in
the result row in full — 2500 characters, longer than every truncation bound
(80, 500, 2000) appearing in the program — so the stored question text is not
truncated. -/
theorem C2_cex :
    ((executar_bateria_testes "llama2_raw" (some ["Perguntas", q2500]) bkOk fsEmpty buildEmpty
        [] zeroT).rows.map fun r => r.pergunta.length) = [2500] := by
  have hstrip : pyStrip q2500 = q2500 := by
    show String.mk (pyStripL (List.replicate 2500 'q')) = q2500
    rw [pyStripL_replicate]
    rfl
  have hlen : q2500.length = 2500 := by
    show (String.mk (List.replicate 2500 'q')).length = 2500
    rw [String.length_mk, List.length_replicate]
  have hend0 : q2500 ≠ "/end" := by
    intro h
    have hl := congrArg String.length h
    rw [hlen] at hl
    exact absurd hl (by decide)
  have hblank0 : q2500 ≠ "" := by
    intro h
    have hl := congrArg String.length h
    rw [hlen] at hl
    exact absurd hl (by decide)
  have hloop : loopPerguntas [q2500] "" = ([q2500], q2500) := by
    simp [loopPerguntas, hstrip, hend0, hblank0]
  have hcar : (carregar_perguntas (some ["Perguntas", q2500])).1 = [q2500] := by
    have hhd : pyStrip "Perguntas" = "Perguntas" := by decide
    simp [carregar_perguntas, hhd, hloop]
  have hne : (carregar_perguntas (some ["Perguntas", q2500])).1 ≠ [] := by
    rw [hcar]
    simp
  rw [executar_raw_eq (some ["Perguntas", q2500]) bkOk fsEmpty buildEmpty [] zeroT hne]
  dsimp only
  rw [hcar]
  simp [List.map_cons, (stepRaw_fields bkOk q2500).1, hlen]

/-- Witness for C2 at a concrete batch run. -/
theorem C2_witness :
    ∃ row,
      (executar_bateria_testes "llama2_raw" (some ["Perguntas", "A?"]) bkOk fsEmpty buildEmpty
          [] zeroT).rows[0]? = some row ∧
      row.pergunta = "A?" ∧ (respOk row = true → row.resposta.length ≤ 2000) :=
  (C2_truncation bkOk vsEmpty "q" "llama2_raw" (some ["Perguntas", "A?"]) fsEmpty buildEmpty
    [] zeroT 0 "A?" (by decide)).2

/-- C5: in batch mode a failed model invocation yields a stored row with the
`ERRO: ` marker and elapsed time 0, the run continues (exactly one row per
question, all exported), and the final report counts the rows whose stored
response does not start with `ERRO`, out of the total attempted. -/
theorem C5_error_rows (model_name : String) (file : Option (List String)) (backend : Backend)
    (fs : FileSystem) (build : List Doc → VectorStore) (chunks : List Doc)
    (outerT : String → ℚ) (hne : (carregar_perguntas file).1 ≠ []) :
    (executar_bateria_testes model_name file backend fs build chunks outerT).rows.length =
      (carregar_perguntas file).1.length ∧
    (executar_bateria_testes model_name file backend fs build chunks outerT).exportCsv =
      some (executar_bateria_testes model_name file backend fs build chunks outerT).rows ∧
    (executar_bateria_testes model_name file backend fs build chunks outerT).reported =
      some
        (((executar_bateria_testes model_name file backend fs build chunks
            outerT).rows.filter respOk).length,
         (carregar_perguntas file).1.length) ∧
    (∀ (i : Nat) (p e : String),
      ((carregar_perguntas file).1)[i]? = some p → model_name = "llama2_raw" →
      backend "llama2" p = Except.error e →
      (executar_bateria_testes model_name file backend fs build chunks outerT).rows[i]? =
        some (Row.mk "llama2_raw" p 0 ("ERRO: " ++ e) "N/A")) ∧
    (∀ (i : Nat) (p e : String),
      ((carregar_perguntas file).1)[i]? = some p → model_name ≠ "llama2_raw" →
      backend (ollamaRagCfg model_name).model
          (promptStr p (similarity_search (setup_vectorstore fs build chunks).1 p 5)) =
        Except.error e →
      (executar_bateria_testes model_name file backend fs build chunks outerT).rows[i]? =
        some (Row.mk model_name p 0 ("ERRO: " ++ e) "N/A")) := by
  by_cases hmn : model_name = "llama2_raw"
  · subst hmn
    rw [executar_raw_eq file backend fs build chunks outerT hne]
    refine ⟨by simp, rfl, rfl, ?_, ?_⟩
    · intro i p e hp _ hb
      dsimp only
      rw [List.getElem?_map, hp]
      simp [stepRaw, generate_raw_response, hb, Except.map]
    · intro i p e hp hcontra _
      exact absurd rfl hcontra
  · rw [executar_rag_eq model_name file backend fs build chunks outerT hne hmn]
    refine ⟨by simp, rfl, rfl, ?_, ?_⟩
    · intro i p e hp hcontra _
      exact absurd hcontra hmn
    · intro i p e hp _ hb
      dsimp only
      rw [List.getElem?_map, hp]
      simp [stepRag, generate_response, hb, Except.map]

/-- Witness for C5 with an unreachable backend: both questions still produce
rows. -/
theorem C5_witness :
    (executar_bateria_testes "llama2_raw" (some ["Perguntas", "A?", "B?"]) bkDown fsEmpty
        buildEmpty [] zeroT).rows.length =
      (carregar_perguntas (some ["Perguntas", "A?", "B?"])).1.length :=
  (C5_error_rows "llama2_raw" (some ["Perguntas", "A?", "B?"]) bkDown fsEmpty buildEmpty []
    zeroT (by decide)).1

/-- C10: in batch mode with the `llama2_raw` configuration, every backend call
is made with model name `llama2` (the control responder's default), while every
recorded row's model identifier reads `llama2_raw`; there is one backend call
per question. -/
theorem C10_raw_label (file : Option (List String)) (backend : Backend) (fs : FileSystem)
    (build : List Doc → VectorStore) (chunks : List Doc) (outerT : String → ℚ)
    (hne : (carregar_perguntas file).1 ≠ []) :
    (∀ inv ∈ (executar_bateria_testes "llama2_raw" file backend fs build chunks
        outerT).invocations, inv.model = "llama2") ∧
    (∀ row ∈ (executar_bateria_testes "llama2_raw" file backend fs build chunks outerT).rows,
      row.modelo = "llama2_raw") ∧
    (executar_bateria_testes "llama2_raw" file backend fs build chunks
        outerT).invocations.length = (carregar_perguntas file).1.length := by
  rw [executar_raw_eq file backend fs build chunks outerT hne]
  refine ⟨?_, ?_, by simp⟩
  · intro inv hinv
    rcases List.mem_map.mp hinv with ⟨p, hp, rfl⟩
    rfl
  · intro row hrow
    rcases List.mem_map.mp hrow with ⟨p, hp, rfl⟩
    exact (stepRaw_fields backend p).2.1

/-- Witness for C10 at a concrete batch run. -/
theorem C10_witness :
    (executar_bateria_testes "llama2_raw" (some ["Perguntas", "A?"]) bkOk fsEmpty buildEmpty
        [] zeroT).invocations.length =
      (carregar_perguntas (some ["Perguntas", "A?"])).1.length :=
  (C10_raw_label (some ["Perguntas", "A?"]) bkOk fsEmpty buildEmpty [] zeroT (by decide)).2.2

/-- C6: for a RAG-enabled model, index setup loads the persisted snapshot
unconditionally whenever it exists — returning it unchanged, independently of
the current chunks (no re-embedding, no corpus-consistency check) — and
otherwise builds a fresh index from the chunks and persists it under the
configured identifier.  The same holds for the inline index setup of the
comparative benchmark (`setup_vectorstore`). -/
theorem C6_index_reuse (model_name : String) (fs : FileSystem)
    (build : List Doc → VectorStore) (chunks chunks2 : List Doc)
    (hm : model_name ≠ "llama2_raw") :
    (fs.indexExists = true →
      setup_rag_system model_name fs build chunks =
        (some (fs.savedIndex, ollamaRagCfg model_name), fs) ∧
      setup_rag_system model_name fs build chunks =
        setup_rag_system model_name fs build chunks2 ∧
      setup_vectorstore fs build chunks = (fs.savedIndex, fs)) ∧
    (fs.indexExists = false →
      setup_rag_system model_name fs build chunks =
        (some (build chunks, ollamaRagCfg model_name), ⟨true, build chunks⟩) ∧
      setup_vectorstore fs build chunks = (build chunks, ⟨true, build chunks⟩)) := by
  constructor <;> intro hex <;>
    simp [setup_rag_system, setup_vectorstore, hm, hex]

/-- Witness for C6: with no snapshot present, the index is built from the chunks
and saved. -/
theorem C6_witness :
    setup_rag_system "mistral" fsEmpty buildEmpty [] =
      (some (buildEmpty [], ollamaRagCfg "mistral"), ⟨true, buildEmpty []⟩) :=
  ((C6_index_reuse "mistral" fsEmpty buildEmpty [] [] (by decide)).2 rfl).1

/-- C4: `generate_response` asks the index for 5 chunks — returning exactly 5
(the highest-ranked ones, in most-to-least-similar order, as a prefix of the
ranking) whenever the index holds at least 5 — cites them unchanged, and reports
the backend's elapsed time rounded to two decimal places; and on the spec's
2-chunk scenario the cited list is `[docA, docB]` in ranking order with the
exported `Fontes` field reading `doc1.pdf (p.1); doc2.pdf (p.2)`. -/
theorem C4_retrieval (vs : VectorStore) (backend : Backend) (llm : OllamaCfg) (q : String)
    (resp : String) (docs : List Doc) (tempo : ℚ)
    (h : (generate_response q vs backend llm).1 = Except.ok (resp, docs, tempo))
    (h5 : 5 ≤ (vs.rank q).length) :
    (docs.length = 5 ∧ (∃ rest, vs.rank q = docs ++ rest) ∧
      ∃ t, backend llm.model (promptStr q docs) = Except.ok (resp, t) ∧ tempo = round2 t) ∧
    (generate_response "What is Wi-Fi 7?" vsAB bkOk (ollamaRagCfg "mistral")).1 =
      Except.ok ("Resposta gerada.", [docA, docB], round2 1) ∧
    fontesStr [docA, docB] = "doc1.pdf (p.1); doc2.pdf (p.2)" := by
  refine ⟨?_, by rfl, by decide⟩
  simp only [generate_response] at h
  revert h
  cases hb : backend llm.model (promptStr q (similarity_search vs q 5)) with
  | error e =>
    intro h
    simp [Except.map] at h
  | ok rt =>
    intro h
    simp only [Except.map] at h
    injection h with h2
    obtain ⟨hresp, hrest⟩ := Prod.mk.inj h2
    obtain ⟨hdocs, htempo⟩ := Prod.mk.inj hrest
    subst hresp
    subst htempo
    subst hdocs
    refine ⟨?_, ⟨(vs.rank q).drop 5, (List.take_append_drop 5 (vs.rank q)).symm⟩,
      rt.2, hb, rfl⟩
    have := List.length_take 5 (vs.rank q)
    simp only [similarity_search]
    omega

/-- Witness for C4 on a 6-chunk index: exactly 5 chunks are cited. -/
theorem C4_witness :
    (similarity_search vs6 "Q" 5).length = 5 :=
  (C4_retrieval vs6 bkOk (ollamaRagCfg "llama2") "Q" "Resposta gerada."
    (similarity_search vs6 "Q" 5) (round2 1) (by rfl) (by decide)).1.1

/-- Joining the pending pieces with the separator yields exactly `weight` many
characters. -/
theorem joinNL_length : ∀ l : List PyStr, (joinNL l).length = weight l
  | [] => rfl
  | [c] => by simp [joinNL, weight]
  | c :: c2 :: rest => by
    have ih := joinNL_length (c2 :: rest)
    simp only [joinNL, weight, List.length_append, List.length_cons] at ih ⊢
    simp at ih ⊢
    omega

/-- Stripping never lengthens a string. -/
theorem pyStripL_length_le (l : List Char) : (pyStripL l).length ≤ l.length := by
  unfold pyStripL
  calc ((l.dropWhile isPyWS).reverse.dropWhile isPyWS).reverse.length
      = ((l.dropWhile isPyWS).reverse.dropWhile isPyWS).length := List.length_reverse _
    _ ≤ (l.dropWhile isPyWS).reverse.length :=
        ((l.dropWhile isPyWS).reverse.dropWhile_sublist isPyWS).length_le
    _ = (l.dropWhile isPyWS).length := List.length_reverse _
    _ ≤ l.length := (l.dropWhile_sublist isPyWS).length_le

/-- `weight` of the pending pieces after appending one more piece to a
nonempty pending list. -/
theorem weight_append_cons : ∀ (l : List PyStr) (d : PyStr), l ≠ [] →
    weight (l ++ [d]) = weight l + 1 + d.length
  | [], _, hl => absurd rfl hl
  | c :: rest, d, _ => by
    cases rest with
    | nil => simp [weight]
    | cons c2 rest2 =>
      have h2 := weight_append_cons (c2 :: rest2) d (by simp)
      simp only [List.cons_append] at h2 ⊢
      simp [weight] at h2 ⊢
      omega

/-- `weight` of the pending pieces after appending one more piece. -/
theorem weight_append_single (l : List PyStr) (d : PyStr) :
    weight (l ++ [d]) = weight l + (if l = [] then 0 else 1) + d.length := by
  cases l with
  | nil => simp [weight]
  | cons c rest =>
    rw [if_neg (by simp)]
    exact weight_append_cons (c :: rest) d (by simp)

/-- The overlap-popping loop preserves the `total`-equals-`weight` invariant,
keeps only pieces that were already pending, and stops either empty or with
room for the next piece within the chunk size. -/
theorem popLoop_spec (dLen : Nat) :
    ∀ (cur : List PyStr), (∀ c ∈ cur, c ≠ []) →
      (popLoop dLen cur (weight cur)).2 = weight (popLoop dLen cur (weight cur)).1 ∧
      (∀ x ∈ (popLoop dLen cur (weight cur)).1, x ∈ cur) ∧
      ((popLoop dLen cur (weight cur)).1 = [] ∨
        weight (popLoop dLen cur (weight cur)).1 + dLen + 1 ≤ CHUNK_SIZE)
  | [], _ => by simp [popLoop, weight]
  | c :: rest, hne => by
    have hsub : weight (c :: rest) - (c.length + if rest = [] then 0 else 1) = weight rest := by
      cases rest <;> simp [weight]
    by_cases hcond : weight (c :: rest) > CHUNK_OVERLAP ∨
        (weight (c :: rest) + dLen + 1 > CHUNK_SIZE ∧ weight (c :: rest) > 0)
    · have heq : popLoop dLen (c :: rest) (weight (c :: rest)) =
          popLoop dLen rest (weight rest) := by
        conv_lhs => rw [popLoop]
        rw [if_pos hcond, hsub]
      rw [heq]
      have ih := popLoop_spec dLen rest (fun x hx => hne x (List.mem_cons_of_mem c hx))
      exact ⟨ih.1, fun x hx => List.mem_cons_of_mem c (ih.2.1 x hx), ih.2.2⟩
    · have heq : popLoop dLen (c :: rest) (weight (c :: rest)) =
          (c :: rest, weight (c :: rest)) := by
        conv_lhs => rw [popLoop]
        rw [if_neg hcond]
      rw [heq]
      refine ⟨rfl, fun x hx => hx, Or.inr ?_⟩
      have hcpos : 0 < c.length := List.length_pos.mpr (hne c (List.mem_cons_self c rest))
      have hw : 0 < weight (c :: rest) := by
        have hweq : weight (c :: rest) =
            c.length + (if rest = [] then 0 else 1) + weight rest := by
          cases rest <;> simp [weight]
        omega
      rcases Nat.lt_or_ge CHUNK_SIZE (weight (c :: rest) + dLen + 1) with hgt | hle
      · exact absurd (Or.inr ⟨hgt, hw⟩) hcond
      · exact hle

/-- Any chunk flushed from the pending pieces is within the chunk size, unless
the pending pieces are a single oversized unit (which is then emitted whole,
stripped). -/
theorem joinDocs_bound (U : List PyStr) (current : List PyStr) (chunk : PyStr)
    (hcur : ∀ c ∈ current, c ∈ U)
    (hinv : weight current ≤ CHUNK_SIZE ∨ ∃ u, current = [u] ∧ CHUNK_SIZE < u.length)
    (hj : joinDocs current = some chunk) :
    chunk.length ≤ CHUNK_SIZE ∨ ∃ u ∈ U, CHUNK_SIZE < u.length ∧ chunk = pyStripL u := by
  simp only [joinDocs] at hj
  by_cases hempty : pyStripL (joinNL current) = []
  · rw [if_pos hempty] at hj
    exact absurd hj (by simp)
  · rw [if_neg hempty] at hj
    obtain rfl := Option.some.inj hj
    rcases hinv with hle | ⟨u, rfl, hu⟩
    · left
      calc (pyStripL (joinNL current)).length
          ≤ (joinNL current).length := pyStripL_length_le _
        _ = weight current := joinNL_length current
        _ ≤ CHUNK_SIZE := hle
    · exact Or.inr ⟨u, hcur u (by simp), hu, by simp [joinNL]⟩

/-- Invariant proof for the merge loop: every chunk it ever emits is within the
chunk size or is a single oversized unit, stripped. -/
theorem mergeLoop_bound (U : List PyStr) :
    ∀ (ds docs current : List PyStr),
      (∀ chunk ∈ docs, chunk.length ≤ CHUNK_SIZE ∨
        ∃ u ∈ U, CHUNK_SIZE < u.length ∧ chunk = pyStripL u) →
      (∀ c ∈ current, c ≠ [] ∧ c ∈ U) →
      (weight current ≤ CHUNK_SIZE ∨ ∃ u, current = [u] ∧ CHUNK_SIZE < u.length) →
      (∀ d ∈ ds, d ≠ [] ∧ d ∈ U) →
      ∀ chunk ∈ mergeLoop docs current (weight current) ds,
        chunk.length ≤ CHUNK_SIZE ∨ ∃ u ∈ U, CHUNK_SIZE < u.length ∧ chunk = pyStripL u
  | [], docs, current, hdocs, hcur, hinv, _ => by
    intro chunk hchunk
    simp only [mergeLoop] at hchunk
    rcases List.mem_append.mp hchunk with hd | hj
    · exact hdocs chunk hd
    · exact joinDocs_bound U current chunk (fun c hc => (hcur c hc).2) hinv
        (by simpa [Option.mem_toList] using hj)
  | d :: ds, docs, current, hdocs, hcur, hinv, hds => by
    intro chunk hchunk
    have hd := hds d (List.mem_cons_self d ds)
    have hds' : ∀ x ∈ ds, x ≠ [] ∧ x ∈ U := fun x hx => hds x (List.mem_cons_of_mem d hx)
    simp only [mergeLoop] at hchunk
    by_cases hover : weight current + d.length + (if current = [] then 0 else 1) > CHUNK_SIZE
    · rw [if_pos hover] at hchunk
      by_cases hcne : current ≠ []
      · rw [if_pos hcne] at hchunk
        have spec := popLoop_spec d.length current (fun c hc => (hcur c hc).1)
        have hdocs2 : ∀ chunk ∈ docs ++ (joinDocs current).toList,
            chunk.length ≤ CHUNK_SIZE ∨
              ∃ u ∈ U, CHUNK_SIZE < u.length ∧ chunk = pyStripL u := by
          intro c hc
          rcases List.mem_append.mp hc with h1 | h2
          · exact hdocs c h1
          · exact joinDocs_bound U current c (fun x hx => (hcur x hx).2) hinv
              (by simpa [Option.mem_toList] using h2)
        have hcur2 : ∀ c ∈ (popLoop d.length current (weight current)).1 ++ [d],
            c ≠ [] ∧ c ∈ U := by
          intro c hc
          rcases List.mem_append.mp hc with h1 | h2
          · exact hcur c (spec.2.1 c h1)
          · simp only [List.mem_singleton] at h2
            subst h2
            exact hd
        have htot : (popLoop d.length current (weight current)).2 + d.length +
            (if (popLoop d.length current (weight current)).1 = [] then 0 else 1) =
            weight ((popLoop d.length current (weight current)).1 ++ [d]) := by
          rw [spec.1, weight_append_single]
          omega
        rw [htot] at hchunk
        have hinv2 : weight ((popLoop d.length current (weight current)).1 ++ [d]) ≤
              CHUNK_SIZE ∨
            ∃ u, (popLoop d.length current (weight current)).1 ++ [d] = [u] ∧
              CHUNK_SIZE < u.length := by
          rcases spec.2.2 with hnil | hroom
          · rw [hnil]
            by_cases hdlen : d.length ≤ CHUNK_SIZE
            · left
              simp [weight]
              omega
            · exact Or.inr ⟨d, rfl, by omega⟩
          · left
            rw [weight_append_single]
            split_ifs <;> omega
        exact mergeLoop_bound U ds (docs ++ (joinDocs current).toList)
          ((popLoop d.length current (weight current)).1 ++ [d]) hdocs2 hcur2 hinv2 hds'
          chunk hchunk
      · rw [if_neg hcne] at hchunk
        push_neg at hcne
        subst hcne
        have hover' : CHUNK_SIZE < d.length := by
          simpa [weight] using hover
        rw [List.nil_append] at hchunk
        have htot : weight ([] : List PyStr) + d.length +
            (if ([] : List PyStr) = [] then 0 else 1) = weight [d] := by
          simp [weight]
        rw [htot] at hchunk
        exact mergeLoop_bound U ds docs [d] hdocs
          (by intro c hc; simp only [List.mem_singleton] at hc; subst hc; exact hd)
          (Or.inr ⟨d, rfl, hover'⟩) hds' chunk hchunk
    · rw [if_neg hover] at hchunk
      have htot : weight current + d.length + (if current = [] then 0 else 1) =
          weight (current ++ [d]) := by
        rw [weight_append_single]
        omega
      rw [htot] at hchunk
      have hcur2 : ∀ c ∈ current ++ [d], c ≠ [] ∧ c ∈ U := by
        intro c hc
        rcases List.mem_append.mp hc with h1 | h2
        · exact hcur c h1
        · simp only [List.mem_singleton] at h2
          subst h2
          exact hd
      exact mergeLoop_bound U ds docs (current ++ [d]) hdocs hcur2
        (Or.inl (by rw [← htot]; omega)) hds' chunk hchunk

/-- The two concrete units of the overlap counterexample. -/
theorem exAB_split :
    split_text (List.replicate 101 'a' ++ '\n' :: List.replicate 400 'b') =
      [List.replicate 101 'a', List.replicate 400 'b'] := by decide

/-- The two chunks of the counterexample share no boundary content at all, let
alone `CHUNK_OVERLAP` characters. -/
theorem exAB_no_overlap :
    ¬ sharesAtLeast (List.replicate 101 'a') (List.replicate 400 'b') CHUNK_OVERLAP := by
  rintro ⟨k, hk, h1, h2, heq⟩
  simp only [List.length_replicate] at h1 h2 heq
  rw [List.drop_replicate, List.take_replicate] at heq
  have hk100 : 100 ≤ k := hk
  have hmem : 'a' ∈ List.replicate (101 - (101 - k)) 'a' := by
    rw [List.mem_replicate]
    exact ⟨by omega, rfl⟩
  rw [heq] at hmem
  exact absurd (List.eq_of_mem_replicate hmem) (by decide)

/-- C7 (amended): every chunk the configured splitter produces is at most
`CHUNK_SIZE` (500) characters long, except when the chunk is (the stripped form
of) a single newline-delimited unit that itself exceeds 500 characters, which is
kept whole; but consecutive chunks are NOT guaranteed to share `CHUNK_OVERLAP`
(100) characters at the boundary — the splitter carries over at most 100
characters of whole trailing units and may carry none, as the exhibited input
shows.  (The original claim's "consecutive chunks share at least 100 characters"
fails, see the counterexample.) -/
theorem C7_chunk_bounds :
    (∀ (text : PyStr), ∀ chunk ∈ split_text text,
      chunk.length ≤ CHUNK_SIZE ∨
        ∃ u ∈ splitLines text, CHUNK_SIZE < u.length ∧ chunk = pyStripL u) ∧
    (∃ text c1 c2, split_text text = [c1, c2] ∧ ¬ sharesAtLeast c1 c2 CHUNK_OVERLAP) := by
  constructor
  · intro text chunk hchunk
    refine mergeLoop_bound (splitLines text) (splitLines text) [] []
      (by intro c hc; simp at hc) (by intro c hc; simp at hc)
      (Or.inl (by simp [weight])) ?_ chunk hchunk
    intro d hd
    refine ⟨?_, hd⟩
    have := List.mem_filter.mp hd
    simpa using this.2
  · exact ⟨List.replicate 101 'a' ++ '\n' :: List.replicate 400 'b',
      List.replicate 101 'a', List.replicate 400 'b', exAB_split, exAB_no_overlap⟩

/-- Counterexample to C7: on the input consisting of a 101-character line
followed by a 400-character line, the splitter produces two consecutive chunks
from the same source that share no content at the boundary (the 101-character
trailing unit exceeds the 100-character overlap budget, so nothing is carried
over), refuting "consecutive chunks share at least 100 characters". -/
theorem C7_cex :
    split_text (List.replicate 101 'a' ++ '\n' :: List.replicate 400 'b') =
      [List.replicate 101 'a', List.replicate 400 'b'] ∧
    ¬ sharesAtLeast (List.replicate 101 'a') (List.replicate 400 'b') CHUNK_OVERLAP :=
  ⟨exAB_split, exAB_no_overlap⟩

end InternalLLM
